import Mathlib

/-!
Verification of the EmpowerHer 2.0 safety backend (`src/Webathon/app.py`).

The embedding below translates the core logic of the Flask prototype into
Lean definitions:

* `mock_predict` — the safety ScoreEngine (`app.py`, `mock_predict`);
  Python floats are modelled as exact rationals, `datetime.now().hour` is the
  parameter `hour`, and `random()` is the parameter `r`.
* `api_route` — the RouteGenerator endpoint (`app.py`, `api_route`).
* `classify` — the keyword chat classifier inlined in `api_chat`.
* `DB`, `save_report`, `save_share`, `save_chat`, `get_reports`,
  `clear_reports` — the SQLite-backed IncidentStore.  A table with an
  `INTEGER PRIMARY KEY AUTOINCREMENT` column is modelled as a list of rows
  plus the `sqlite_sequence` counter for that table; `DELETE FROM` does not
  reset the counter, matching the AUTOINCREMENT semantics of SQLite.
* `api_report`, `api_sos`, `api_share`, `api_chat` — the write endpoints;
  a JSON field is a `PyVal` (absent, numeric, or a value `float()` rejects)
  and an endpoint returns `Option` (`none` = the request raises / HTTP 500).
-/

namespace Webathon

/-- Model of the Python builtin `round(x, 3)` on a rational: round to 3 decimal places.
(Ties never arise in the concrete evaluations below, so the tie-breaking
rule is immaterial.) -/
def round3 (x : ℚ) : ℚ := (round (x * 1000) : ℤ) / 1000

/-- Model of `max(0.0, min(1.0, x))` from `mock_predict`. -/
def clamp01 (x : ℚ) : ℚ := max 0 (min 1 x)

/-- The result dictionary of `mock_predict`. -/
structure Assessment where
  score : ℚ
  label : String
  color : String
  alt_route : List (ℚ × ℚ)
  steps : List String
  deriving DecidableEq, Repr

/-- The clamped pre-rounding score of `mock_predict`:
`base = 0.62 - abs(22 - hour)/44.0`, `noise = (r - 0.5)*0.28`,
`max(0.0, min(1.0, base + noise))`. -/
def rawScore (hour : ℕ) (r : ℚ) : ℚ :=
  clamp01 ((0.62 - |(22 : ℚ) - (hour : ℚ)| / 44) + (r - 0.5) * 0.28)

/-- The function `mock_predict(lat, lng)` from `app.py`, with the ambient
`datetime.now().hour` and `random()` made explicit parameters.
The label/color are chosen from the *unrounded* score, and the returned
`score` field is `round(score, 3)`, exactly as in the source. -/
def mock_predict (hour : ℕ) (r : ℚ) (lat lng : ℚ) : Assessment :=
  let score := rawScore hour r
  let label := if score > 0.75 then "Safe"
               else if score > 0.45 then "Caution"
               else "Unsafe"
  let color := if score > 0.75 then "green"
               else if score > 0.45 then "orange"
               else "red"
  { score := round3 score
    label := label
    color := color
    alt_route := [(lat + 0.0015, lng + 0.0006), (lat + 0.0031, lng + 0.0011)]
    steps := ["Head north for 200m", "Turn right at the park",
              "Continue straight for 300m"] }

/-- The route polyline chosen by `api_route` for a given `mode` string:
`driving` and `safer` have their own deltas, anything else falls back to
the walking deltas. -/
def routeFor (mode : String) (lat lng : ℚ) : List (ℚ × ℚ) :=
  if mode = "driving" then
    [(lat, lng), (lat + 0.006, lng + 0.004), (lat + 0.012, lng + 0.009)]
  else if mode = "safer" then
    [(lat, lng), (lat + 0.002, lng + 0.001), (lat + 0.004, lng + 0.002)]
  else
    [(lat, lng), (lat + 0.0015, lng + 0.0008), (lat + 0.003, lng + 0.0015)]

/-- Endpoint `GET /api/route`: the `(route, prediction)` pair.  The source computes
`prediction = mock_predict(lat+0.0015, lng+0.0008)` unconditionally, after
the mode dispatch. -/
def api_route (hour : ℕ) (r : ℚ) (lat lng : ℚ) (mode : String) :
    List (ℚ × ℚ) × Assessment :=
  (routeFor mode lat lng, mock_predict hour r (lat + 0.0015) (lng + 0.0008))

/-! Chat classifier (`api_chat`) -/

/-- Model of the Python method `str.lower` on the character list of a string. -/
def lowerChars (s : List Char) : List Char := s.map Char.toLower

/-- Python substring containment, `kw in q_low`. -/
def containsKw (q : List Char) (kw : String) : Prop := kw.data <:+: q

instance (q : List Char) (kw : String) : Decidable (containsKw q kw) :=
  List.decidableInfix kw.data q

/-- Answer of rule 1 (the question contains `safe` or `danger`). -/
def ans_safety : String :=
  "Mock assistant: I see mixed risk around this area. Click the map to get an exact safety score and suggested safer route."

/-- Answer of rule 2 (the question contains `route` or `navigate`). -/
def ans_route : String :=
  "Mock assistant: Use Safer Route mode to prioritise well-lit and populated paths."

/-- Answer of rule 3 (the question contains `share` or `contacts`). -/
def ans_share : String :=
  "Mock assistant: I can share your live location with pre-selected contacts. Start Location Share to demo."

/-- Answer of rule 4 (the question contains `help` or `panic`). -/
def ans_sos : String :=
  "Mock assistant: Press SOS now. I will notify your emergency contacts and start location share (demo)."

/-- Fallback answer (rule 5). -/
def ans_fallback : String :=
  "Mock assistant: I can show safety heatmaps, suggest safer routes, and trigger SOS. Try: \"Is this area safe?\""

/-- The if/elif keyword chain of `api_chat`, applied to the (already
stripped) question `q`; `q_low = q.lower()` is computed inside. -/
def classify (q : List Char) : String :=
  let q_low := lowerChars q
  if containsKw q_low "safe" ∨ containsKw q_low "danger" then ans_safety
  else if containsKw q_low "route" ∨ containsKw q_low "navigate" then ans_route
  else if containsKw q_low "share" ∨ containsKw q_low "contacts" then ans_share
  else if containsKw q_low "help" ∨ containsKw q_low "panic" then ans_sos
  else ans_fallback

/-- Whitespace characters stripped by the Python method `str.strip` (ASCII range). -/
def isSpaceChar (c : Char) : Bool :=
  c == ' ' || c == '\t' || c == '\n' || c == '\r' || c == '\x0b' || c == '\x0c'

/-- Model of the Python method `str.strip` on a character list. -/
def pyStrip (s : List Char) : List Char :=
  ((s.dropWhile isSpaceChar).reverse.dropWhile isSpaceChar).reverse

/-! IncidentStore (SQLite tables) -/

/-- A row of the `reports` table. -/
structure Report where
  id : ℕ
  lat : ℚ
  lng : ℚ
  severity : String
  note : String
  created_at : ℕ
  deriving DecidableEq, Repr

/-- A row of the `shares` table. -/
structure Share where
  id : ℕ
  lat : ℚ
  lng : ℚ
  created_at : ℕ
  deriving DecidableEq, Repr

/-- A row of the `chats` table. -/
structure ChatRow where
  id : ℕ
  q : String
  a : String
  created_at : ℕ
  deriving DecidableEq, Repr

/-- The SQLite database: each `AUTOINCREMENT` table is its list of rows in
insertion order plus its `sqlite_sequence` counter (the largest id ever
assigned, which `DELETE FROM` does not reset). -/
structure DB where
  reports : List Report
  reports_seq : ℕ
  shares : List Share
  shares_seq : ℕ
  chats : List ChatRow
  chats_seq : ℕ
  deriving DecidableEq, Repr

/-- The freshly created database of `init_db`: three empty tables. -/
def initDB : DB :=
  { reports := [], reports_seq := 0, shares := [], shares_seq := 0,
    chats := [], chats_seq := 0 }

/-- The helper `save_report`: INSERT into `reports` with the next AUTOINCREMENT id;
`created_at` (`datetime.now().isoformat()`) is the explicit parameter `t`. -/
def save_report (lat lng : ℚ) (severity note : String) (t : ℕ) (db : DB) : DB :=
  { db with
    reports := db.reports ++
      [{ id := db.reports_seq + 1, lat := lat, lng := lng,
         severity := severity, note := note, created_at := t }]
    reports_seq := db.reports_seq + 1 }

/-- The helper `save_share`: INSERT into `shares`. -/
def save_share (lat lng : ℚ) (t : ℕ) (db : DB) : DB :=
  { db with
    shares := db.shares ++
      [{ id := db.shares_seq + 1, lat := lat, lng := lng, created_at := t }]
    shares_seq := db.shares_seq + 1 }

/-- The helper `save_chat`: INSERT into `chats`. -/
def save_chat (q a : String) (t : ℕ) (db : DB) : DB :=
  { db with
    chats := db.chats ++
      [{ id := db.chats_seq + 1, q := q, a := a, created_at := t }]
    chats_seq := db.chats_seq + 1 }

/-- Row order of `SELECT ... ORDER BY id DESC`: descending by `id`. -/
def byIdDesc (a b : Report) : Prop := b.id ≤ a.id

instance : DecidableRel byIdDesc := fun a b => Nat.decLe b.id a.id

/-- The helper `get_reports(limit)`: `SELECT ... FROM reports ORDER BY id DESC LIMIT ?`. -/
def get_reports (limit : ℕ) (db : DB) : List Report :=
  (List.insertionSort byIdDesc db.reports).take limit

/-- Endpoint `POST /api/clear_reports`: `DELETE FROM reports` (the AUTOINCREMENT
sequence survives, and the other tables are untouched). -/
def clear_reports (db : DB) : DB := { db with reports := [] }

/-! Write endpoints -/

/-- A JSON field as seen by `data.get(key, default)` and `float(...)`:
absent, a numeric value, or a value that `float()` rejects with a
`ValueError` (e.g. a non-numeric string). -/
inductive PyVal where
  | absent : PyVal
  | num : ℚ → PyVal
  | nonNumeric : PyVal
  deriving DecidableEq, Repr

/-- Model of `data.get(key, default)` where `default` is a float literal. -/
def pyGetD (v : PyVal) (d : ℚ) : PyVal :=
  match v with
  | .absent => .num d
  | v => v

/-- Model of the Python builtin `float(x)`: succeeds on numbers, raises on non-numeric values. -/
def pyFloat : PyVal → Option ℚ
  | .num q => some q
  | _ => none

/-- Endpoint `POST /api/report`: `none` means the handler raised (HTTP 500). -/
def api_report (latv lngv : PyVal) (severity note : Option String) (t : ℕ)
    (db : DB) : Option DB := do
  let lat ← pyFloat (pyGetD latv 28.4595)
  let lng ← pyFloat (pyGetD lngv 77.0266)
  pure (save_report lat lng (severity.getD "Medium") (note.getD "") t db)

/-- Endpoint `POST /api/sos`: saves a severity-`High` report with note
`"SOS triggered: {type}"`; `float()` is applied to `data.get(...)`. -/
def api_sos (latv lngv : PyVal) (ty : Option String) (t : ℕ)
    (db : DB) : Option DB := do
  let lat ← pyFloat (pyGetD latv 28.4595)
  let lng ← pyFloat (pyGetD lngv 77.0266)
  pure (save_report lat lng "High" ("SOS triggered: " ++ ty.getD "unknown") t db)

/-- Endpoint `POST /api/share`. -/
def api_share (latv lngv : PyVal) (t : ℕ) (db : DB) : Option DB := do
  let lat ← pyFloat (pyGetD latv 28.4595)
  let lng ← pyFloat (pyGetD lngv 77.0266)
  pure (save_share lat lng t db)

/-- Endpoint `POST /api/chat`: the handler strips the question, classifies it,
persists the exchange, and returns the answer.  Here `qv = none` models a
missing `q` key; the Python expression `data.get("q") or ""` turns both a
missing key and an empty string into the empty string, which `Option.getD`
captures. -/
def api_chat (qv : Option String) (t : ℕ) (db : DB) : String × DB :=
  let q : List Char := pyStrip (qv.getD "").data
  let a := classify q
  (a, save_chat (String.mk q) a t db)

/-! Operation sequences over the store -/

/-- One store-mutating request. -/
inductive Op where
  | report (latv lngv : PyVal) (severity note : Option String) (t : ℕ)
  | sos (latv lngv : PyVal) (ty : Option String) (t : ℕ)
  | share (latv lngv : PyVal) (t : ℕ)
  | chat (qv : Option String) (t : ℕ)
  | clear
  deriving Repr

/-- Apply one request to the store; a request that raises (non-numeric
coordinate) leaves the store unchanged, since the `INSERT` is never
reached. -/
def applyOp (db : DB) : Op → DB
  | .report latv lngv severity note t => (api_report latv lngv severity note t db).getD db
  | .sos latv lngv ty t => (api_sos latv lngv ty t db).getD db
  | .share latv lngv t => (api_share latv lngv t db).getD db
  | .chat qv t => (api_chat qv t db).2
  | .clear => clear_reports db

/-- The store produced by a request sequence from a fresh database. -/
def run (ops : List Op) : DB := ops.foldl applyOp initDB

/-- The scoring algorithm exactly as the specification words it (spec §4.1):
`base = 0.62 - |22 - hourOfDay(now)| / 44.0`, `noise = (randomSample - 0.5) * 0.28`,
`score = clamp(base + noise, 0, 1)` rounded to 3 decimal places.  Written from
the wording of the spec, to be compared against the source function
`mock_predict`. -/
def specScore (hour : ℕ) (r : ℚ) : ℚ :=
  let base : ℚ := 0.62 - |(22 : ℚ) - (hour : ℚ)| / 44
  let noise : ℚ := (r - 0.5) * 0.28
  round3 (clamp01 (base + noise))

/-- The well-formedness invariant of a database as produced by the program:
each table is listed in strictly increasing id order and its sequence
counter dominates every id in the table. -/
structure DBInv (db : DB) : Prop where
  repAsc : db.reports.Pairwise fun a b => a.id < b.id
  repLe : ∀ x ∈ db.reports, x.id ≤ db.reports_seq
  shAsc : db.shares.Pairwise fun a b => a.id < b.id
  shLe : ∀ x ∈ db.shares, x.id ≤ db.shares_seq
  chAsc : db.chats.Pairwise fun a b => a.id < b.id
  chLe : ∀ x ∈ db.chats, x.id ≤ db.chats_seq

/-- Does a `share` request succeed (both coordinates survive `float(...)`)? -/
def shareOk : Op → Bool
  | .share latv lngv _ =>
      (pyFloat (pyGetD latv 28.4595)).isSome && (pyFloat (pyGetD lngv 77.0266)).isSome
  | _ => false

/-- Is an operation a chat request (these always insert)? -/
def isChatOp : Op → Bool
  | .chat _ _ => true
  | _ => false

/-! Helper lemmas about rounding and clamping -/

theorem clamp01_nonneg (x : ℚ) : 0 ≤ clamp01 x := le_max_left 0 _

theorem clamp01_le_one (x : ℚ) : clamp01 x ≤ 1 :=
  max_le (by norm_num) (min_le_left 1 x)

theorem round_cast_le (y : ℚ) : (round y : ℚ) ≤ y + 1 / 2 := by
  rw [round_eq]
  exact Int.floor_le (y + 1 / 2)

theorem lt_round_cast (y : ℚ) : y - 1 / 2 < (round y : ℚ) := by
  rw [round_eq]
  have h := Int.lt_floor_add_one (y + 1 / 2)
  linarith

theorem round3_nonneg {x : ℚ} (hx : 0 ≤ x) : 0 ≤ round3 x := by
  rw [round3]
  have h2 : (-1 : ℚ) < (round (x * 1000) : ℚ) := by
    have := lt_round_cast (x * 1000)
    linarith
  have h : (0 : ℤ) ≤ round (x * 1000) := by
    have h3 : (-1 : ℤ) < round (x * 1000) := by exact_mod_cast h2
    omega
  have h4 : (0 : ℚ) ≤ (round (x * 1000) : ℚ) := by exact_mod_cast h
  exact div_nonneg h4 (by norm_num)

theorem round3_le_one {x : ℚ} (hx : x ≤ 1) : round3 x ≤ 1 := by
  rw [round3]
  have h : round (x * 1000) ≤ 1000 := by
    have h1 := round_cast_le (x * 1000)
    have h2 : (round (x * 1000) : ℚ) < 1001 := by linarith
    have : round (x * 1000) < 1001 := by exact_mod_cast h2
    omega
  have : (round (x * 1000) : ℚ) ≤ 1000 := by exact_mod_cast h
  linarith

theorem mock_predict_score (hour : ℕ) (r lat lng : ℚ) :
    (mock_predict hour r lat lng).score = round3 (rawScore hour r) := rfl

theorem mock_predict_label (hour : ℕ) (r lat lng : ℚ) :
    (mock_predict hour r lat lng).label =
      if rawScore hour r > 0.75 then "Safe"
      else if rawScore hour r > 0.45 then "Caution" else "Unsafe" := rfl

theorem mock_predict_color (hour : ℕ) (r lat lng : ℚ) :
    (mock_predict hour r lat lng).color =
      if rawScore hour r > 0.75 then "green"
      else if rawScore hour r > 0.45 then "orange" else "red" := rfl

/-- C1 (counterexample): the claimed invariant relates label/color to the
*returned* (rounded) score, but the source computes the label from the
score before rounding.  At hour 22 with random sample 0.966 the raw score
is 0.75048, so the returned score is exactly 0.75 while the label is
"Safe" — the claim says a returned score of 0.75 must be labelled
"Caution". -/
theorem C1_rounding_boundary_cex :
    (mock_predict 22 (966 / 1000) 0 0).score = 0.75 ∧
    (mock_predict 22 (966 / 1000) 0 0).label = "Safe" ∧
    (mock_predict 22 (966 / 1000) 0 0).label ≠ "Caution" := by
  refine ⟨?_, ?_, ?_⟩
  · norm_num [mock_predict, rawScore, clamp01, round3, round_eq]
  · norm_num [mock_predict, rawScore, clamp01]
  · norm_num [mock_predict, rawScore, clamp01]
    decide

/-- C1 (amended): label and color are a deterministic function of the
pre-rounding score with the claimed closed thresholds; in terms of the
returned 3-decimal score the threshold table holds whenever the returned
score is strictly inside a band, while at the boundary values 0.75 and
0.45 the label may be either of the two adjacent classes, because the
label is computed before rounding. -/
theorem C1_label_thresholds (hour : ℕ) (r lat lng : ℚ) :
    ((mock_predict hour r lat lng).score > 0.75 →
      (mock_predict hour r lat lng).label = "Safe" ∧
      (mock_predict hour r lat lng).color = "green") ∧
    (0.45 < (mock_predict hour r lat lng).score →
      (mock_predict hour r lat lng).score < 0.75 →
      (mock_predict hour r lat lng).label = "Caution" ∧
      (mock_predict hour r lat lng).color = "orange") ∧
    ((mock_predict hour r lat lng).score < 0.45 →
      (mock_predict hour r lat lng).label = "Unsafe" ∧
      (mock_predict hour r lat lng).color = "red") ∧
    ((mock_predict hour r lat lng).score = 0.75 →
      ((mock_predict hour r lat lng).label = "Safe" ∧
        (mock_predict hour r lat lng).color = "green") ∨
      ((mock_predict hour r lat lng).label = "Caution" ∧
        (mock_predict hour r lat lng).color = "orange")) ∧
    ((mock_predict hour r lat lng).score = 0.45 →
      ((mock_predict hour r lat lng).label = "Caution" ∧
        (mock_predict hour r lat lng).color = "orange") ∨
      ((mock_predict hour r lat lng).label = "Unsafe" ∧
        (mock_predict hour r lat lng).color = "red")) := by
  have hub := round_cast_le (rawScore hour r * 1000)
  have hlb := lt_round_cast (rawScore hour r * 1000)
  simp only [mock_predict_score, mock_predict_label, mock_predict_color, round3]
  set s := rawScore hour r with hs
  set n : ℤ := round (s * 1000) with hn
  refine ⟨?_, ?_, ?_, ?_, ?_⟩
  · intro h
    have h750 : (750 : ℤ) < n := by
      have : (750 : ℚ) < (n : ℚ) := by rw [gt_iff_lt] at h; norm_num at h ⊢; linarith
      exact_mod_cast this
    have h751 : ((751 : ℤ) : ℚ) ≤ (n : ℚ) := by exact_mod_cast (by omega : (751 : ℤ) ≤ n)
    have hsgt : s > 0.75 := by push_cast at h751; norm_num; linarith
    rw [if_pos hsgt, if_pos hsgt]
    exact ⟨rfl, rfl⟩
  · intro h1 h2
    have ha : (450 : ℤ) < n := by
      have : (450 : ℚ) < (n : ℚ) := by norm_num at h1 ⊢; linarith
      exact_mod_cast this
    have hb : n < (750 : ℤ) := by
      have : (n : ℚ) < 750 := by norm_num at h2 ⊢; linarith
      exact_mod_cast this
    have ha' : ((451 : ℤ) : ℚ) ≤ (n : ℚ) := by exact_mod_cast (by omega : (451 : ℤ) ≤ n)
    have hb' : (n : ℚ) ≤ ((749 : ℤ) : ℚ) := by exact_mod_cast (by omega : n ≤ (749 : ℤ))
    have hsgt : s > 0.45 := by push_cast at ha'; norm_num; linarith
    have hsle : ¬ s > 0.75 := by push_cast at hb'; norm_num; linarith
    rw [if_neg hsle, if_pos hsgt, if_neg hsle, if_pos hsgt]
    exact ⟨rfl, rfl⟩
  · intro h
    have hb : n < (450 : ℤ) := by
      have : (n : ℚ) < 450 := by norm_num at h ⊢; linarith
      exact_mod_cast this
    have hb' : (n : ℚ) ≤ ((449 : ℤ) : ℚ) := by exact_mod_cast (by omega : n ≤ (449 : ℤ))
    have h45 : ¬ s > 0.45 := by push_cast at hb'; norm_num; linarith
    have h75 : ¬ s > 0.75 := by push_cast at hb'; norm_num; linarith
    rw [if_neg h75, if_neg h45, if_neg h75, if_neg h45]
    exact ⟨rfl, rfl⟩
  · intro h
    have h750 : n = (750 : ℤ) := by
      have : (n : ℚ) = 750 := by
        norm_num at h
        field_simp at h
        linarith
      exact_mod_cast this
    have hq : (n : ℚ) = 750 := by exact_mod_cast h750
    by_cases hgt : s > 0.75
    · left; rw [if_pos hgt, if_pos hgt]; exact ⟨rfl, rfl⟩
    · right
      have hsgt : s > 0.45 := by norm_num; rw [hq] at hub; linarith
      rw [if_neg hgt, if_pos hsgt, if_neg hgt, if_pos hsgt]
      exact ⟨rfl, rfl⟩
  · intro h
    have h450 : n = (450 : ℤ) := by
      have : (n : ℚ) = 450 := by
        norm_num at h
        field_simp at h
        linarith
      exact_mod_cast this
    have hq : (n : ℚ) = 450 := by exact_mod_cast h450
    by_cases hgt : s > 0.45
    · left
      have h75 : ¬ s > 0.75 := by norm_num; rw [hq] at hlb; linarith
      rw [if_neg h75, if_pos hgt, if_neg h75, if_pos hgt]
      exact ⟨rfl, rfl⟩
    · right
      have h75 : ¬ s > 0.75 := by norm_num; rw [hq] at hlb; linarith
      rw [if_neg h75, if_neg hgt, if_neg h75, if_neg hgt]
      exact ⟨rfl, rfl⟩

/-- C1 (witness): at hour 12 with random sample 0.5 the returned score is
0.393 (strictly below 0.45) and the theorem yields label "Unsafe" and
color "red". -/
theorem C1_label_thresholds_witness :
    (mock_predict 12 (1 / 2) 0 0).score < 0.45 ∧
    (mock_predict 12 (1 / 2) 0 0).label = "Unsafe" ∧
    (mock_predict 12 (1 / 2) 0 0).color = "red" := by
  have hlt : (mock_predict 12 (1 / 2) 0 0).score < 0.45 := by
    norm_num [mock_predict, rawScore, clamp01, round3, round_eq]
  exact ⟨hlt, ((C1_label_thresholds 12 (1 / 2) 0 0).2.2.1 hlt).1,
    ((C1_label_thresholds 12 (1 / 2) 0 0).2.2.1 hlt).2⟩

/-- C2: the score returned by `mock_predict` is exactly the rounded, clamped
diurnal formula of the spec, and it lies in `[0, 1]`. -/
theorem C2_score_formula (hour : ℕ) (r lat lng : ℚ) (_h0 : 0 ≤ r) (_h1 : r < 1) :
    (mock_predict hour r lat lng).score = specScore hour r ∧
    0 ≤ (mock_predict hour r lat lng).score ∧
    (mock_predict hour r lat lng).score ≤ 1 := by
  refine ⟨rfl, ?_, ?_⟩
  · rw [mock_predict_score, rawScore]
    exact round3_nonneg (clamp01_nonneg _)
  · rw [mock_predict_score, rawScore]
    exact round3_le_one (clamp01_le_one _)

/-- C2 (witness): the formula and the bounds at hour 12, sample 0.5. -/
theorem C2_score_formula_witness :
    (mock_predict 12 (1 / 2) 0 0).score = specScore 12 (1 / 2) ∧
    0 ≤ (mock_predict 12 (1 / 2) 0 0).score ∧
    (mock_predict 12 (1 / 2) 0 0).score ≤ 1 :=
  C2_score_formula 12 (1 / 2) 0 0 (by norm_num) (by norm_num)

/-- C3 (counterexample): in `driving` mode the second waypoint of the
returned route is `(lat+0.006, lng+0.004)`, but the prediction is *not* the
assessment at that waypoint — the source always assesses
`(lat+0.0015, lng+0.0008)`, the walking-mode second waypoint. -/
theorem C3_mode_counterexample :
    (api_route 22 (1 / 2) 0 0 "driving").1.get? 1 = some (0.006, 0.004) ∧
    (api_route 22 (1 / 2) 0 0 "driving").2 ≠ mock_predict 22 (1 / 2) 0.006 0.004 := by
  constructor
  · norm_num [api_route, routeFor]
  · intro h
    have h2 := congrArg Assessment.alt_route h
    norm_num [api_route, mock_predict, routeFor] at h2

/-- C3 (amended): the prediction returned by `GET /api/route` is always the
assessment at `(lat+0.0015, lng+0.0008)` — which is the second waypoint of
the returned route exactly for the walking mode and for unrecognized mode
strings, not for `driving` or `safer`. -/
theorem C3_prediction_point (hour : ℕ) (r lat lng : ℚ) (mode : String) :
    (api_route hour r lat lng mode).2 =
      mock_predict hour r (lat + 0.0015) (lng + 0.0008) ∧
    (mode ≠ "driving" → mode ≠ "safer" →
      (api_route hour r lat lng mode).1.get? 1 = some (lat + 0.0015, lng + 0.0008)) := by
  refine ⟨rfl, fun h1 h2 => ?_⟩
  simp [api_route, routeFor, h1, h2]

/-- C3 (witness): for the walking mode the prediction is the assessment at
the second waypoint of the route. -/
theorem C3_prediction_point_witness :
    (api_route 10 (1 / 2) 1 2 "walking").2 =
      mock_predict 10 (1 / 2) (1 + 0.0015) (2 + 0.0008) ∧
    (api_route 10 (1 / 2) 1 2 "walking").1.get? 1 = some (1 + 0.0015, 2 + 0.0008) := by
  have h := C3_prediction_point 10 (1 / 2) 1 2 "walking"
  exact ⟨h.1, h.2 (by decide) (by decide)⟩

/-- C4 (counterexample): a *non-numeric* coordinate on a write endpoint is
not replaced by the fallback coordinate — `float(...)` raises and the
request fails (no row is written), on all three write endpoints. -/
theorem C4_nonnumeric_counterexample :
    api_report PyVal.nonNumeric (PyVal.num 77) none none 0 initDB = none ∧
    api_sos PyVal.nonNumeric (PyVal.num 77) none 0 initDB = none ∧
    api_share PyVal.nonNumeric (PyVal.num 77) 0 initDB = none :=
  ⟨rfl, rfl, rfl⟩

/-- C4 (amended): on the write endpoints a *missing* `lat`/`lng` defaults to
the fallback coordinate `(28.4595, 77.0266)` and the write proceeds, while
a *non-numeric* `lat`/`lng` makes the request fail with an error instead of
defaulting. -/
theorem C4_default_vs_error (latq lngq : ℚ) (v : PyVal) (sev note ty : Option String)
    (t : ℕ) (db : DB) :
    (api_report PyVal.absent (PyVal.num lngq) sev note t db
      = some (save_report 28.4595 lngq (sev.getD "Medium") (note.getD "") t db)) ∧
    (api_report (PyVal.num latq) PyVal.absent sev note t db
      = some (save_report latq 77.0266 (sev.getD "Medium") (note.getD "") t db)) ∧
    (api_report PyVal.absent PyVal.absent sev note t db
      = some (save_report 28.4595 77.0266 (sev.getD "Medium") (note.getD "") t db)) ∧
    (api_sos PyVal.absent (PyVal.num lngq) ty t db
      = some (save_report 28.4595 lngq "High" ("SOS triggered: " ++ ty.getD "unknown") t db)) ∧
    (api_sos (PyVal.num latq) PyVal.absent ty t db
      = some (save_report latq 77.0266 "High" ("SOS triggered: " ++ ty.getD "unknown") t db)) ∧
    (api_share PyVal.absent (PyVal.num lngq) t db
      = some (save_share 28.4595 lngq t db)) ∧
    (api_share (PyVal.num latq) PyVal.absent t db
      = some (save_share latq 77.0266 t db)) ∧
    (api_report PyVal.nonNumeric v sev note t db = none) ∧
    (api_report (PyVal.num latq) PyVal.nonNumeric sev note t db = none) ∧
    (api_sos PyVal.nonNumeric v ty t db = none) ∧
    (api_sos (PyVal.num latq) PyVal.nonNumeric ty t db = none) ∧
    (api_share PyVal.nonNumeric v t db = none) ∧
    (api_share (PyVal.num latq) PyVal.nonNumeric t db = none) :=
  ⟨rfl, rfl, rfl, rfl, rfl, rfl, rfl, rfl, rfl, rfl, rfl, rfl, rfl⟩

/-- C8: `clear_reports` empties the reports table and leaves the chats and
shares tables (and their contents) unchanged. -/
theorem C8_clear_frame (db : DB) :
    (clear_reports db).reports = [] ∧
    (clear_reports db).chats = db.chats ∧
    (clear_reports db).shares = db.shares :=
  ⟨rfl, rfl, rfl⟩

/-- C9: the input coordinate never influences the score, label, or color of
the assessment — two calls at the same hour with the same random sample but
different coordinates classify identically. -/
theorem C9_coordinate_independence (hour : ℕ) (r lat₁ lng₁ lat₂ lng₂ : ℚ) :
    (mock_predict hour r lat₁ lng₁).score = (mock_predict hour r lat₂ lng₂).score ∧
    (mock_predict hour r lat₁ lng₁).label = (mock_predict hour r lat₂ lng₂).label ∧
    (mock_predict hour r lat₁ lng₁).color = (mock_predict hour r lat₂ lng₂).color :=
  ⟨rfl, rfl, rfl⟩

/-- C5: the chat classifier is an ordered, first-match-wins,
case-insensitive keyword table: rule 1 (`safe`/`danger`), rule 2
(`route`/`navigate`), rule 3 (`share`/`contacts`), rule 4 (`help`/`panic`),
rule 5 (fallback).  In particular "help me find a safe route" matches
rule 1 — whose answer is not the SOS answer of rule 4 — and
"Is it SAFE to share my location" matches rule 1, not rule 3. -/
theorem C5_first_match_wins (q : List Char) :
    (containsKw (lowerChars q) "safe" ∨ containsKw (lowerChars q) "danger" →
      classify q = ans_safety) ∧
    (¬(containsKw (lowerChars q) "safe" ∨ containsKw (lowerChars q) "danger") →
      containsKw (lowerChars q) "route" ∨ containsKw (lowerChars q) "navigate" →
      classify q = ans_route) ∧
    (¬(containsKw (lowerChars q) "safe" ∨ containsKw (lowerChars q) "danger") →
      ¬(containsKw (lowerChars q) "route" ∨ containsKw (lowerChars q) "navigate") →
      containsKw (lowerChars q) "share" ∨ containsKw (lowerChars q) "contacts" →
      classify q = ans_share) ∧
    (¬(containsKw (lowerChars q) "safe" ∨ containsKw (lowerChars q) "danger") →
      ¬(containsKw (lowerChars q) "route" ∨ containsKw (lowerChars q) "navigate") →
      ¬(containsKw (lowerChars q) "share" ∨ containsKw (lowerChars q) "contacts") →
      containsKw (lowerChars q) "help" ∨ containsKw (lowerChars q) "panic" →
      classify q = ans_sos) ∧
    (¬(containsKw (lowerChars q) "safe" ∨ containsKw (lowerChars q) "danger") →
      ¬(containsKw (lowerChars q) "route" ∨ containsKw (lowerChars q) "navigate") →
      ¬(containsKw (lowerChars q) "share" ∨ containsKw (lowerChars q) "contacts") →
      ¬(containsKw (lowerChars q) "help" ∨ containsKw (lowerChars q) "panic") →
      classify q = ans_fallback) ∧
    classify "help me find a safe route".data = ans_safety ∧
    classify "Is it SAFE to share my location".data = ans_safety ∧
    ans_safety ≠ ans_sos ∧ ans_safety ≠ ans_share := by
  refine ⟨?_, ?_, ?_, ?_, ?_, by decide, by decide, by decide, by decide⟩
  · intro h1
    simp only [classify]
    rw [if_pos h1]
  · intro h1 h2
    simp only [classify]
    rw [if_neg h1, if_pos h2]
  · intro h1 h2 h3
    simp only [classify]
    rw [if_neg h1, if_neg h2, if_pos h3]
  · intro h1 h2 h3 h4
    simp only [classify]
    rw [if_neg h1, if_neg h2, if_neg h3, if_pos h4]
  · intro h1 h2 h3 h4
    simp only [classify]
    rw [if_neg h1, if_neg h2, if_neg h3, if_neg h4]

/-- C5 (witness): the rule-1 implication applied to the concrete input
"help me find a safe route" (which also contains the rule-4 keyword
"help") yields the safety-explanation answer. -/
theorem C5_first_match_wins_witness :
    classify "help me find a safe route".data = ans_safety :=
  (C5_first_match_wins "help me find a safe route".data).1 (by decide)

/-- C10: a missing, empty, or whitespace-only chat question is not
rejected: the endpoint answers with the generic fallback response and
persists a chat row whose question is the empty string. -/
theorem C10_empty_chat (qv : Option String) (t : ℕ) (db : DB)
    (h : ∀ c ∈ (qv.getD "").data, isSpaceChar c = true) :
    (api_chat qv t db).1 = ans_fallback ∧
    (api_chat qv t db).2.chats =
      db.chats ++ [{ id := db.chats_seq + 1, q := "", a := ans_fallback, created_at := t }] := by
  have hstrip : pyStrip (qv.getD "").data = [] := by
    rw [pyStrip, List.dropWhile_eq_nil_iff.mpr h]
    rfl
  have hcls : classify ([] : List Char) = ans_fallback := by decide
  constructor
  · simp only [api_chat, hstrip, hcls]
  · simp only [api_chat, hstrip, hcls, save_chat]

/-- C10 (witness): a whitespace-only question produces the fallback answer
and a persisted exchange with the empty question. -/
theorem C10_empty_chat_witness :
    (api_chat (some "   ") 0 initDB).1 = ans_fallback ∧
    (api_chat (some "   ") 0 initDB).2.chats =
      initDB.chats ++
        [{ id := initDB.chats_seq + 1, q := "", a := ans_fallback, created_at := 0 }] :=
  C10_empty_chat (some "   ") 0 initDB (by decide)

/-! Store lemmas for the id and ordering claims -/

theorem range'_one_concat (n : ℕ) : List.range' 1 (n + 1) = List.range' 1 n ++ [n + 1] := by
  have h := List.range'_append_1 1 n 1
  rw [Nat.add_comm 1 n] at h
  simpa using h.symm

theorem orderedInsert_of_forall_lt (a : Report) (m : List Report)
    (h : ∀ x ∈ m, a.id < x.id) :
    List.orderedInsert byIdDesc a m = m ++ [a] := by
  induction m with
  | nil => rfl
  | cons x xs ih =>
    have hna : ¬ byIdDesc a x := not_le.mpr (h x (List.mem_cons_self x xs))
    rw [List.orderedInsert, if_neg hna]
    rw [ih fun y hy => h y (List.mem_cons_of_mem x hy)]
    rfl

theorem insertionSort_of_idAsc (l : List Report)
    (h : l.Pairwise fun a b => a.id < b.id) :
    List.insertionSort byIdDesc l = l.reverse := by
  induction l with
  | nil => rfl
  | cons a l ih =>
    obtain ⟨h1, h2⟩ := List.pairwise_cons.mp h
    rw [List.insertionSort, ih h2,
      orderedInsert_of_forall_lt a l.reverse fun x hx => h1 x (List.mem_reverse.mp hx),
      List.reverse_cons]

theorem dbInv_init : DBInv initDB :=
  ⟨List.Pairwise.nil, fun x hx => absurd hx (List.not_mem_nil x),
   List.Pairwise.nil, fun x hx => absurd hx (List.not_mem_nil x),
   List.Pairwise.nil, fun x hx => absurd hx (List.not_mem_nil x)⟩

theorem dbInv_save_report {db : DB} (h : DBInv db) (lat lng : ℚ)
    (sev note : String) (t : ℕ) : DBInv (save_report lat lng sev note t db) := by
  refine ⟨?_, ?_, h.shAsc, h.shLe, h.chAsc, h.chLe⟩
  · refine List.pairwise_append.mpr ⟨h.repAsc, List.pairwise_singleton _ _, ?_⟩
    intro x hx y hy
    rw [List.mem_singleton] at hy
    subst hy
    exact Nat.lt_succ_of_le (h.repLe x hx)
  · intro x hx
    rcases List.mem_append.mp hx with hm | hm
    · exact (h.repLe x hm).trans (Nat.le_succ _)
    · rw [List.mem_singleton] at hm
      subst hm
      exact le_refl _

theorem dbInv_save_share {db : DB} (h : DBInv db) (lat lng : ℚ) (t : ℕ) :
    DBInv (save_share lat lng t db) := by
  refine ⟨h.repAsc, h.repLe, ?_, ?_, h.chAsc, h.chLe⟩
  · refine List.pairwise_append.mpr ⟨h.shAsc, List.pairwise_singleton _ _, ?_⟩
    intro x hx y hy
    rw [List.mem_singleton] at hy
    subst hy
    exact Nat.lt_succ_of_le (h.shLe x hx)
  · intro x hx
    rcases List.mem_append.mp hx with hm | hm
    · exact (h.shLe x hm).trans (Nat.le_succ _)
    · rw [List.mem_singleton] at hm
      subst hm
      exact le_refl _

theorem dbInv_save_chat {db : DB} (h : DBInv db) (q a : String) (t : ℕ) :
    DBInv (save_chat q a t db) := by
  refine ⟨h.repAsc, h.repLe, h.shAsc, h.shLe, ?_, ?_⟩
  · refine List.pairwise_append.mpr ⟨h.chAsc, List.pairwise_singleton _ _, ?_⟩
    intro x hx y hy
    rw [List.mem_singleton] at hy
    subst hy
    exact Nat.lt_succ_of_le (h.chLe x hx)
  · intro x hx
    rcases List.mem_append.mp hx with hm | hm
    · exact (h.chLe x hm).trans (Nat.le_succ _)
    · rw [List.mem_singleton] at hm
      subst hm
      exact le_refl _

theorem dbInv_clear {db : DB} (h : DBInv db) : DBInv (clear_reports db) :=
  ⟨List.Pairwise.nil, fun x hx => absurd hx (List.not_mem_nil x),
   h.shAsc, h.shLe, h.chAsc, h.chLe⟩

theorem dbInv_applyOp {db : DB} (h : DBInv db) (op : Op) : DBInv (applyOp db op) := by
  cases op with
  | report latv lngv sev note t =>
    cases latv <;> cases lngv <;>
      first
      | exact h
      | exact dbInv_save_report h _ _ _ _ _
  | sos latv lngv ty t =>
    cases latv <;> cases lngv <;>
      first
      | exact h
      | exact dbInv_save_report h _ _ _ _ _
  | share latv lngv t =>
    cases latv <;> cases lngv <;>
      first
      | exact h
      | exact dbInv_save_share h _ _ _
  | chat qv t => exact dbInv_save_chat h _ _ _
  | clear => exact dbInv_clear h

theorem foldl_dbInv (ops : List Op) : ∀ db, DBInv db → DBInv (List.foldl applyOp db ops) := by
  induction ops with
  | nil => exact fun db h => h
  | cons op ops ih => exact fun db h => ih _ (dbInv_applyOp h op)

theorem run_inv (ops : List Op) : DBInv (run ops) :=
  foldl_dbInv ops initDB dbInv_init

theorem applyOp_shares_seq (db : DB) (op : Op) :
    (applyOp db op).shares_seq = db.shares_seq + (if shareOk op then 1 else 0) := by
  cases op with
  | share latv lngv t => cases latv <;> cases lngv <;> rfl
  | report latv lngv sev note t => cases latv <;> cases lngv <;> rfl
  | sos latv lngv ty t => cases latv <;> cases lngv <;> rfl
  | chat qv t => rfl
  | clear => rfl

theorem applyOp_chats_seq (db : DB) (op : Op) :
    (applyOp db op).chats_seq = db.chats_seq + (if isChatOp op then 1 else 0) := by
  cases op with
  | share latv lngv t => cases latv <;> cases lngv <;> rfl
  | report latv lngv sev note t => cases latv <;> cases lngv <;> rfl
  | sos latv lngv ty t => cases latv <;> cases lngv <;> rfl
  | chat qv t => rfl
  | clear => rfl

theorem foldl_shares_seq (ops : List Op) : ∀ db : DB,
    (List.foldl applyOp db ops).shares_seq = db.shares_seq + (ops.filter shareOk).length := by
  induction ops with
  | nil => intro db; rfl
  | cons op ops ih =>
    intro db
    rw [List.foldl_cons, ih, applyOp_shares_seq, List.filter_cons]
    cases h : shareOk op <;> simp [h]
    all_goals omega

theorem foldl_chats_seq (ops : List Op) : ∀ db : DB,
    (List.foldl applyOp db ops).chats_seq = db.chats_seq + (ops.filter isChatOp).length := by
  induction ops with
  | nil => intro db; rfl
  | cons op ops ih =>
    intro db
    rw [List.foldl_cons, ih, applyOp_chats_seq, List.filter_cons]
    cases h : isChatOp op <;> simp [h]
    all_goals omega

theorem shares_map_save_share (db : DB) (lat lng : ℚ) (t : ℕ)
    (h : db.shares.map Share.id = List.range' 1 db.shares_seq) :
    (save_share lat lng t db).shares.map Share.id =
      List.range' 1 (save_share lat lng t db).shares_seq := by
  show (db.shares ++ [_]).map Share.id = List.range' 1 (db.shares_seq + 1)
  rw [List.map_append, h, range'_one_concat]
  rfl

theorem chats_map_save_chat (db : DB) (q a : String) (t : ℕ)
    (h : db.chats.map ChatRow.id = List.range' 1 db.chats_seq) :
    (save_chat q a t db).chats.map ChatRow.id =
      List.range' 1 (save_chat q a t db).chats_seq := by
  show (db.chats ++ [_]).map ChatRow.id = List.range' 1 (db.chats_seq + 1)
  rw [List.map_append, h, range'_one_concat]
  rfl

theorem applyOp_shares_map (db : DB) (op : Op)
    (h : db.shares.map Share.id = List.range' 1 db.shares_seq) :
    (applyOp db op).shares.map Share.id = List.range' 1 (applyOp db op).shares_seq := by
  cases op with
  | share latv lngv t =>
    cases latv <;> cases lngv <;>
      first
      | exact h
      | exact shares_map_save_share db _ _ _ h
  | report latv lngv sev note t => cases latv <;> cases lngv <;> exact h
  | sos latv lngv ty t => cases latv <;> cases lngv <;> exact h
  | chat qv t => exact h
  | clear => exact h

theorem applyOp_chats_map (db : DB) (op : Op)
    (h : db.chats.map ChatRow.id = List.range' 1 db.chats_seq) :
    (applyOp db op).chats.map ChatRow.id = List.range' 1 (applyOp db op).chats_seq := by
  cases op with
  | share latv lngv t => cases latv <;> cases lngv <;> exact h
  | report latv lngv sev note t => cases latv <;> cases lngv <;> exact h
  | sos latv lngv ty t => cases latv <;> cases lngv <;> exact h
  | chat qv t => exact chats_map_save_chat db _ _ _ h
  | clear => exact h

theorem foldl_shares_map (ops : List Op) : ∀ db : DB,
    db.shares.map Share.id = List.range' 1 db.shares_seq →
    (List.foldl applyOp db ops).shares.map Share.id =
      List.range' 1 (List.foldl applyOp db ops).shares_seq := by
  induction ops with
  | nil => exact fun db h => h
  | cons op ops ih => exact fun db h => ih _ (applyOp_shares_map db op h)

theorem foldl_chats_map (ops : List Op) : ∀ db : DB,
    db.chats.map ChatRow.id = List.range' 1 db.chats_seq →
    (List.foldl applyOp db ops).chats.map ChatRow.id =
      List.range' 1 (List.foldl applyOp db ops).chats_seq := by
  induction ops with
  | nil => exact fun db h => h
  | cons op ops ih => exact fun db h => ih _ (applyOp_chats_map db op h)

theorem reports_reach_save (db : DB) (lat lng : ℚ) (sev note : String) (t : ℕ) :
    (∀ y ∈ (save_report lat lng sev note t db).reports,
        y ∈ db.reports ∨ db.reports_seq < y.id) ∧
    db.reports_seq ≤ (save_report lat lng sev note t db).reports_seq := by
  constructor
  · intro y hy
    rcases List.mem_append.mp hy with hm | hm
    · exact Or.inl hm
    · rw [List.mem_singleton] at hm
      subst hm
      exact Or.inr (Nat.lt_succ_self _)
  · exact Nat.le_succ _

theorem applyOp_reports_reach (db : DB) (op : Op) :
    (∀ y ∈ (applyOp db op).reports, y ∈ db.reports ∨ db.reports_seq < y.id) ∧
    db.reports_seq ≤ (applyOp db op).reports_seq := by
  cases op with
  | report latv lngv sev note t =>
    cases latv <;> cases lngv <;>
      first
      | exact ⟨fun y hy => Or.inl hy, le_refl _⟩
      | exact reports_reach_save db _ _ _ _ _
  | sos latv lngv ty t =>
    cases latv <;> cases lngv <;>
      first
      | exact ⟨fun y hy => Or.inl hy, le_refl _⟩
      | exact reports_reach_save db _ _ _ _ _
  | share latv lngv t =>
    cases latv <;> cases lngv <;> exact ⟨fun y hy => Or.inl hy, le_refl _⟩
  | chat qv t => exact ⟨fun y hy => Or.inl hy, le_refl _⟩
  | clear => exact ⟨fun y hy => absurd hy (List.not_mem_nil y), le_refl _⟩

theorem foldl_reports_reach (ops : List Op) : ∀ db : DB,
    (∀ y ∈ (List.foldl applyOp db ops).reports, y ∈ db.reports ∨ db.reports_seq < y.id) ∧
    db.reports_seq ≤ (List.foldl applyOp db ops).reports_seq := by
  induction ops with
  | nil => exact fun db => ⟨fun y hy => Or.inl hy, le_refl _⟩
  | cons op ops ih =>
    intro db
    rw [List.foldl_cons]
    obtain ⟨ih1, ih2⟩ := ih (applyOp db op)
    obtain ⟨p1, p2⟩ := applyOp_reports_reach db op
    refine ⟨fun y hy => ?_, le_trans p2 ih2⟩
    rcases ih1 y hy with hm | hm
    · exact p1 y hm
    · exact Or.inr (lt_of_le_of_lt p2 hm)

theorem run_append (ops l : List Op) :
    run (ops ++ l) = List.foldl applyOp (run ops) l := by
  rw [run, run, List.foldl_append]

/-- C6: for every reachable store state and every limit `n`,
`get_reports n` returns at most `n` rows, in strictly descending id order
(most recent first, since ids follow insertion order). -/
theorem C6_recent_reports (ops : List Op) (n : ℕ) :
    (get_reports n (run ops)).length ≤ n ∧
    (get_reports n (run ops)).Pairwise (fun a b => b.id < a.id) := by
  constructor
  · exact List.length_take_le n _
  · rw [get_reports, insertionSort_of_idAsc _ (run_inv ops).repAsc]
    refine List.Pairwise.sublist (List.take_sublist _ _) ?_
    exact List.pairwise_reverse.mpr (run_inv ops).repAsc

/-- C7: across any request sequence, the ids of each of the three tables
are strictly increasing in insertion order; the shares and chats tables
carry exactly the ids `1..k` where `k` counts only that entity type's
(successful) inserts — so the three sequences are independent — and after
a `clear_reports` every later report receives an id strictly greater than
every report id used before the clear (ids are never reused). -/
theorem C7_id_discipline (ops extra : List Op) :
    ((run ops).reports.Pairwise fun a b => a.id < b.id) ∧
    ((run ops).shares.Pairwise fun a b => a.id < b.id) ∧
    ((run ops).chats.Pairwise fun a b => a.id < b.id) ∧
    ((run ops).shares.map Share.id = List.range' 1 (ops.filter shareOk).length) ∧
    ((run ops).chats.map ChatRow.id = List.range' 1 (ops.filter isChatOp).length) ∧
    (∀ x ∈ (run ops).reports, ∀ y ∈ (run (ops ++ Op.clear :: extra)).reports,
      x.id < y.id) := by
  refine ⟨(run_inv ops).repAsc, (run_inv ops).shAsc, (run_inv ops).chAsc, ?_, ?_, ?_⟩
  · have h := foldl_shares_map ops initDB rfl
    rw [run, h, foldl_shares_seq ops initDB]
    simp [initDB]
  · have h := foldl_chats_map ops initDB rfl
    rw [run, h, foldl_chats_seq ops initDB]
    simp [initDB]
  · intro x hx y hy
    have hseq := (run_inv ops).repLe x hx
    have hrun : run (ops ++ Op.clear :: extra) =
        List.foldl applyOp (clear_reports (run ops)) extra := by
      rw [run_append, List.foldl_cons]
      rfl
    rw [hrun] at hy
    obtain ⟨r1, _⟩ := foldl_reports_reach extra (clear_reports (run ops))
    rcases r1 y hy with hm | hm
    · exact absurd hm (List.not_mem_nil y)
    · exact lt_of_le_of_lt hseq hm

/-- C7 (witness): insert a report (it gets id 1), clear, insert another
report — the new report gets id 2, strictly greater than the id used
before the clear. -/
theorem C7_id_discipline_witness :
    ({ id := 1, lat := 1, lng := 2, severity := "Medium", note := "",
       created_at := 5 } : Report) ∈
      (run [Op.report (PyVal.num 1) (PyVal.num 2) none none 5]).reports ∧
    ({ id := 2, lat := 3, lng := 4, severity := "Medium", note := "",
       created_at := 6 } : Report) ∈
      (run ([Op.report (PyVal.num 1) (PyVal.num 2) none none 5] ++
        Op.clear :: [Op.report (PyVal.num 3) (PyVal.num 4) none none 6])).reports ∧
    ({ id := 1, lat := 1, lng := 2, severity := "Medium", note := "",
       created_at := 5 } : Report).id <
      ({ id := 2, lat := 3, lng := 4, severity := "Medium", note := "",
         created_at := 6 } : Report).id := by
  have hx : ({ id := 1, lat := 1, lng := 2, severity := "Medium", note := "", created_at := 5 } : Report) ∈
      (run [Op.report (PyVal.num 1) (PyVal.num 2) none none 5]).reports := by
    simp [run, applyOp, api_report, pyGetD, pyFloat, save_report, initDB]
  have hy : ({ id := 2, lat := 3, lng := 4, severity := "Medium", note := "", created_at := 6 } : Report) ∈
      (run ([Op.report (PyVal.num 1) (PyVal.num 2) none none 5] ++
        Op.clear :: [Op.report (PyVal.num 3) (PyVal.num 4) none none 6])).reports := by
    simp [run, applyOp, api_report, pyGetD, pyFloat, save_report, initDB, clear_reports]
  exact ⟨hx, hy,
    (C7_id_discipline [Op.report (PyVal.num 1) (PyVal.num 2) none none 5]
      [Op.report (PyVal.num 3) (PyVal.num 4) none none 6]).2.2.2.2.2 _ hx _ hy⟩

end Webathon
